import Mathlib

/-!
Shallow embedding of the morgenroth-be payroll and attendance core
(src/mapp/classes/payroll_service.py, src/mapp/classes/attendance_service.py,
src/mapp/models.py, src/mapp/signals.py) together with theorems settling the
frozen claims about it.

Modelling conventions:
- Python floats and Decimals are modelled as exact rationals.
- Nullable columns and optional arguments are modelled as Option.
- Django querysets over a table are modelled as Lists held in a DB record;
  filter(...) becomes List.filter, first() becomes List.find? (the claims do
  not depend on the Meta default ordering of rows).
- The broad try/except blocks of the services only fire on infrastructure
  failures (database errors), which are outside the pure model; the functions
  below are therefore total, mirroring the success path.  Where a service
  checks the status of a sub-call (the deduction fetch inside the payslip),
  the sub-call result keeps its Except shape so that the fallback branch of
  the source is preserved in the embedding.
- The base64 photo decode is performed by an external library; its outcome is
  part of the input (field decoded of B64Photo), so the control flow of the
  photo branch of clock_in is preserved without re-implementing base64.
-/

namespace Morgenroth

/-- Calendar date of a row (year, month, day). -/
structure Date where
  year : Nat
  month : Nat
  day : Nat
deriving Repr, DecidableEq

/-- Point in time: its calendar date, absolute seconds (differences of which
model total_seconds of a timedelta), and seconds since local midnight, used by
the auto-clock-out sweep to compare against a configured end-of-day time. -/
structure Timestamp where
  date : Date
  sec : ℚ
  tod : ℚ
deriving Repr, DecidableEq

/-- CustomUser row (src/mapp/models.py), restricted to the fields the
attendance and payroll core reads or writes. -/
structure CustomUser where
  user_id : Nat
  user_role : String
  hourly_rate : ℚ
  hourly_rate_currency : String
  lunch_start : Option Nat
  lunch_end : Option Nat
  is_present_today : Bool
  is_on_leave : Bool
  is_on_holiday : Bool
  status : String
  is_active : Bool
deriving Repr, DecidableEq

/-- AttendanceSession row (src/mapp/models.py).  The photo column stores the
decoded file contents. -/
structure AttendanceSession where
  user_id : Nat
  date : Date
  clock_in_time : Option Timestamp
  lunch_in : Option Timestamp
  lunch_out : Option Timestamp
  clock_out_time : Option Timestamp
  clockin_type : String
  total_hours : Option ℚ
  notes : Option String
  clock_in_photo : Option String
  status : String
deriving Repr, DecidableEq

/-- OvertimeAllowance row (src/mapp/models.py). -/
structure OvertimeAllowance where
  user_id : Nat
  date : Date
  month : Nat
  year : Nat
  hours : ℚ
  amount : Option ℚ
  remarks : Option String
deriving Repr, DecidableEq

/-- AdvancePayment row (src/mapp/models.py). -/
structure AdvancePayment where
  user_id : Nat
  month : Nat
  year : Nat
  amount : Option ℚ
  remarks : Option String
  approved_by : Option String
  created_at : Date
deriving Repr, DecidableEq

/-- StatutoryDeduction row (src/mapp/models.py): a named percentage. -/
structure StatutoryDeduction where
  id : Nat
  name : String
  percentage : ℚ
deriving Repr, DecidableEq

/-- HourCorrection row (src/mapp/models.py lines 565-634). -/
structure HourCorrection where
  user_id : Nat
  date : Date
  month : Nat
  year : Nat
  hours : ℚ
  hourly_rate : Option ℚ
  amount : ℚ
  reason : String
deriving Repr, DecidableEq

/-- The relational store as read by the payroll engine. -/
structure DB where
  sessions : List AttendanceSession
  overtimes : List OvertimeAllowance
  advances : List AdvancePayment
  deductions : List StatutoryDeduction
  corrections : List HourCorrection
deriving Repr, DecidableEq

/-- Half-to-even integer rounding, the rounding mode of the Python builtin
round.  Ties (fractional part exactly one half) go to the even integer. -/
def roundHalfEven (x : ℚ) : ℤ :=
  let f := Rat.floor x
  let r := x - (f : ℚ)
  if r < 1/2 then f
  else if 1/2 < r then f + 1
  else if f % 2 = 0 then f else f + 1

/-- Python round(x, 2): half-to-even rounding to two decimal places. -/
def pyRound2 (x : ℚ) : ℚ := ((roundHalfEven (100 * x) : ℤ) : ℚ) / 100

/-- PayrollService.get_hourly_rate: rate and currency of a user.  The source
wraps the values as a success dict; the expression float(user.hourly_rate or
0.0) maps a zero rate to the same value, and the currency falls back to KES
when the stored string is empty. -/
structure RateInfo where
  hourly_rate : ℚ
  currency : String
deriving Repr, DecidableEq

def get_hourly_rate (user : CustomUser) : RateInfo :=
  { hourly_rate := user.hourly_rate
    currency := if user.hourly_rate_currency = "" then "KES" else user.hourly_rate_currency }

/-- PayrollService.get_all_deductions: fetches every StatutoryDeduction row.
The error constructor corresponds to a database failure, which the pure model
never produces; it is kept so the fallback branch of the payslip generator
stays in the embedding. -/
def get_all_deductions (db : DB) : Except String (List StatutoryDeduction) :=
  .ok db.deductions

/-- Row of the base-pay breakdown of a payslip. -/
structure BasePayRow where
  date : Option Date
  hours : ℚ
  pay : ℚ
  notes : String
deriving Repr, DecidableEq

/-- Row of the overtime breakdown of a payslip. -/
structure OvertimeRow where
  date : Option Date
  hours : ℚ
  amount : ℚ
  remarks : String
deriving Repr, DecidableEq

/-- Row of the deductions breakdown of a payslip. -/
structure DeductionRow where
  name : String
  percentage : ℚ
  amount : ℚ
deriving Repr, DecidableEq

/-- Row of the advance breakdown of a payslip. -/
structure AdvanceRow where
  date : Option Date
  amount : ℚ
  remarks : String
  approved_by : Option String
deriving Repr, DecidableEq

/-- The message payload returned by PayrollService.generate_detailed_payslip
on success. -/
structure Payslip where
  month : Nat
  year : Nat
  hourly_rate : ℚ
  currency : String
  base_pay_breakdown : List BasePayRow
  total_hours : ℚ
  total_base_pay : ℚ
  overtime_breakdown : List OvertimeRow
  total_overtime : ℚ
  gross_pay : ℚ
  deductions_breakdown : List DeductionRow
  total_deductions : ℚ
  advance_breakdown : List AdvanceRow
  total_advance : ℚ
  net_pay : ℚ
deriving Repr, DecidableEq

/-- PayrollService.generate_detailed_payslip (payroll_service.py lines
137-313).  Every section is computed from the rows of the period; a section
whose queryset is empty gets a placeholder row, except the deductions
section, whose breakdown is exactly one row per StatutoryDeduction row when
the fetch succeeds and which only receives the No Deductions placeholder on a
failed fetch. -/
def generate_detailed_payslip (db : DB) (user : CustomUser) (month year : Nat) : Payslip :=
  let rate := get_hourly_rate user
  let hourly_rate := rate.hourly_rate
  let attendance := db.sessions.filter fun s =>
    s.user_id == user.user_id && s.date.month == month && s.date.year == year
      && s.status == "closed"
  let base_pay_breakdown : List BasePayRow :=
    if attendance.isEmpty then [{ date := none, hours := 0, pay := 0, notes := "" }]
    else attendance.map fun s =>
      let hours := s.total_hours.getD 0
      { date := some s.date, hours := hours, pay := hours * hourly_rate
        notes := s.notes.getD "" }
  let total_hours := (attendance.map fun s => s.total_hours.getD 0).sum
  let total_base_pay := (attendance.map fun s => s.total_hours.getD 0 * hourly_rate).sum
  let overtime := db.overtimes.filter fun ot =>
    ot.user_id == user.user_id && ot.month == month && ot.year == year
  let overtime_breakdown : List OvertimeRow :=
    if overtime.isEmpty then [{ date := none, hours := 0, amount := 0, remarks := "" }]
    else overtime.map fun ot =>
      { date := some ot.date, hours := ot.hours, amount := ot.amount.getD 0
        remarks := ot.remarks.getD "" }
  let total_overtime := (overtime.map fun ot => ot.amount.getD 0).sum
  let gross_pay := total_base_pay + total_overtime
  let dedFetch := get_all_deductions db
  let deductions_breakdown : List DeductionRow :=
    match dedFetch with
    | .ok ds => ds.map fun d =>
        { name := d.name, percentage := d.percentage
          amount := gross_pay * (d.percentage / 100) }
    | .error _ => [{ name := "No Deductions", percentage := 0, amount := 0 }]
  let total_deductions :=
    match dedFetch with
    | .ok ds => (ds.map fun d => gross_pay * (d.percentage / 100)).sum
    | .error _ => 0
  let advance := db.advances.filter fun adv =>
    adv.user_id == user.user_id && adv.month == month && adv.year == year
  let advance_breakdown : List AdvanceRow :=
    if advance.isEmpty then
      [{ date := none, amount := 0, remarks := "", approved_by := none }]
    else advance.map fun adv =>
      { date := some adv.created_at, amount := adv.amount.getD 0
        remarks := adv.remarks.getD "", approved_by := adv.approved_by }
  let total_advance := (advance.map fun adv => adv.amount.getD 0).sum
  let net_pay := gross_pay - total_deductions - total_advance
  { month := month, year := year
    hourly_rate := hourly_rate, currency := rate.currency
    base_pay_breakdown := base_pay_breakdown
    total_hours := total_hours, total_base_pay := total_base_pay
    overtime_breakdown := overtime_breakdown, total_overtime := total_overtime
    gross_pay := gross_pay
    deductions_breakdown := deductions_breakdown, total_deductions := total_deductions
    advance_breakdown := advance_breakdown, total_advance := total_advance
    net_pay := net_pay }

/-- PayrollService.get_total_hours_for_period: sum of total_hours over the
closed sessions of the user in the month and year (SQL Sum skips NULL values
and yields 0 on an empty set). -/
def get_total_hours_for_period (db : DB) (user : CustomUser) (month year : Nat) : ℚ :=
  ((db.sessions.filter fun s =>
      s.user_id == user.user_id && s.date.month == month && s.date.year == year
        && s.status == "closed").map fun s => s.total_hours.getD 0).sum

/-- PayrollService.get_total_overtime_amount_for_period. -/
def get_total_overtime_amount_for_period (db : DB) (user : CustomUser) (month year : Nat) : ℚ :=
  ((db.overtimes.filter fun ot =>
      ot.user_id == user.user_id && ot.month == month && ot.year == year).map
    fun ot => ot.amount.getD 0).sum

/-- PayrollService.get_total_advance_for_period. -/
def get_total_advance_for_period (db : DB) (user : CustomUser) (month year : Nat) : ℚ :=
  ((db.advances.filter fun adv =>
      adv.user_id == user.user_id && adv.month == month && adv.year == year).map
    fun adv => adv.amount.getD 0).sum

/-- The message payload returned by PayrollService.calculate_net_pay on
success. -/
structure NetPayResult where
  month : Nat
  year : Nat
  currency : String
  gross_pay : ℚ
  total_overtime : ℚ
  total_hours : ℚ
  hourly_rate : ℚ
  deductions_breakdown : List DeductionRow
  total_deductions : ℚ
  total_advance : ℚ
  net_pay : ℚ
deriving Repr, DecidableEq

/-- PayrollService.calculate_net_pay (payroll_service.py lines 315-402). -/
def calculate_net_pay (db : DB) (user : CustomUser) (month year : Nat) : NetPayResult :=
  let total_hours := get_total_hours_for_period db user month year
  let rate := get_hourly_rate user
  let hourly_rate := rate.hourly_rate
  let base_pay := total_hours * hourly_rate
  let total_overtime := get_total_overtime_amount_for_period db user month year
  let gross_pay := base_pay + total_overtime
  let dedFetch := get_all_deductions db
  let deductions_breakdown : List DeductionRow :=
    match dedFetch with
    | .ok ds => ds.map fun d =>
        { name := d.name, percentage := d.percentage
          amount := gross_pay * (d.percentage / 100) }
    | .error _ => []
  let total_deductions :=
    match dedFetch with
    | .ok ds => (ds.map fun d => gross_pay * (d.percentage / 100)).sum
    | .error _ => 0
  let total_advance := get_total_advance_for_period db user month year
  let net_pay := gross_pay - total_deductions - total_advance
  { month := month, year := year, currency := rate.currency
    gross_pay := gross_pay, total_overtime := total_overtime
    total_hours := total_hours, hourly_rate := hourly_rate
    deductions_breakdown := deductions_breakdown
    total_deductions := total_deductions
    total_advance := total_advance, net_pay := net_pay }

/-- Uniform status and message dictionary returned by the attendance service. -/
structure AttendanceResult where
  status : String
  message : String
deriving Repr, DecidableEq

/-- Result of a clock operation: the returned dictionary together with the
session table and user row after the operation. -/
structure ClockOutcome where
  result : AttendanceResult
  sessions : List AttendanceSession
  user : CustomUser
deriving Repr, DecidableEq

/-- The CLOCKIN_TYPE_CHOICES of AttendanceSession. -/
def CLOCKIN_TYPE_CHOICES : List String := ["regular", "overtime"]

/-- A base64 photo argument: the raw payload together with the outcome of the
external base64 decode on it (none when the library raises on malformed
input).  A falsy (absent or empty) photo argument is modelled as none. -/
structure B64Photo where
  raw : String
  decoded : Option String
deriving Repr, DecidableEq

/-- The locking existence check shared by clock_in and clock_out: an open
session of the user whose clock_out_time is still null. -/
def open_session_for (user : CustomUser) (s : AttendanceSession) : Bool :=
  s.user_id == user.user_id && s.status == "open" && s.clock_out_time == none

/-- AttendanceService.clock_in (attendance_service.py lines 477-556).
Checks, in source order: missing timestamp, the on-leave flag, the clock-in
type, an existing open session (the row-locked read), then decodes the
optional photo, inserts the open session and marks the user present. -/
def clock_in (sessions : List AttendanceSession) (user : CustomUser)
    (timestamp : Option Timestamp) (clockin_type : String)
    (photo_base64 : Option B64Photo) : ClockOutcome :=
  match timestamp with
  | none => ⟨⟨"error", "missing_timestamp"⟩, sessions, user⟩
  | some ts =>
    if user.is_on_leave then ⟨⟨"error", "user_on_leave"⟩, sessions, user⟩
    else if ¬ CLOCKIN_TYPE_CHOICES.contains clockin_type then
      ⟨⟨"error", "invalid_clockin_type"⟩, sessions, user⟩
    else
      match sessions.find? (open_session_for user) with
      | some _ => ⟨⟨"error", "active_session_exists"⟩, sessions, user⟩
      | none =>
        let mkSession : Option String → AttendanceSession := fun photo =>
          { user_id := user.user_id, date := ts.date
            clock_in_time := some ts, lunch_in := none, lunch_out := none
            clock_out_time := none, clockin_type := clockin_type
            total_hours := none, notes := none, clock_in_photo := photo
            status := "open" }
        let finish : Option String → ClockOutcome := fun photo =>
          ⟨⟨"success", "clock_in_recorded"⟩, sessions ++ [mkSession photo],
           if user.is_present_today then user else { user with is_present_today := true }⟩
        match photo_base64 with
        | none => finish none
        | some p =>
          match p.decoded with
          | none => ⟨⟨"error", "invalid_photo_data"⟩, sessions, user⟩
          | some file => finish (some file)

/-- Replaces the first element satisfying p with f applied to it, leaving the
rest of the list unchanged; this is how a save of the mutated ORM object of a
row found by find? acts on the table. -/
def updateFirst (p : AttendanceSession → Bool)
    (f : AttendanceSession → AttendanceSession) :
    List AttendanceSession → List AttendanceSession
  | [] => []
  | s :: rest => if p s then f s :: rest else s :: updateFirst p f rest

/-- The mutation clock_out applies to the open session it found: stamp the
clock-out time, close the session, keep or overwrite the notes, and store the
rounded hour delta from the clock-in time t1. -/
def closeSession (ts : Timestamp) (notes : Option String) (t1 : Timestamp)
    (s : AttendanceSession) : AttendanceSession :=
  { s with
    clock_out_time := some ts
    status := "closed"
    notes := match notes with | some n => some n | none => s.notes
    total_hours := some (pyRound2 ((ts.sec - t1.sec) / 3600)) }

/-- AttendanceService.clock_out (attendance_service.py lines 559-606).  Finds
the open session of the user under a row lock; with no open session it
returns no_active_session.  A session with a null clock_in_time makes the
delta computation raise, the broad handler returns clock_out_failed and the
transaction leaves the store unchanged.  Otherwise the session is closed with
total_hours = round of the second delta over 3600 to two decimals, and the
user is marked not present. -/
def clock_out (sessions : List AttendanceSession) (user : CustomUser)
    (timestamp : Timestamp) (notes : Option String) : ClockOutcome :=
  match sessions.find? (open_session_for user) with
  | none => ⟨⟨"error", "no_active_session"⟩, sessions, user⟩
  | some s =>
    match s.clock_in_time with
    | none => ⟨⟨"error", "clock_out_failed"⟩, sessions, user⟩
    | some t1 =>
      ⟨⟨"success", "clock_out_recorded"⟩,
       updateFirst (open_session_for user) (closeSession timestamp notes t1) sessions,
       { user with is_present_today := false }⟩

/-- WorkingHoursConfig row (src/mapp/models.py): end-of-day time per role and
weekday, as seconds since midnight. -/
structure WorkingHoursConfig where
  user_role : String
  day_of_week : Nat
  start_time : ℚ
  end_time : ℚ
  timezone : String
  is_active : Bool
deriving Repr, DecidableEq

/-- The organization state the auto-clock-out sweep acts upon. -/
structure OrgState where
  users : List CustomUser
  sessions : List AttendanceSession
  configs : List WorkingHoursConfig
deriving Repr, DecidableEq

/-- AttendanceService.get_user_day_end_time: the configured end time of the
role of the user for the current weekday, none when no active config row
matches. -/
def get_user_day_end_time (configs : List WorkingHoursConfig)
    (user : CustomUser) (day_of_week : Nat) : Option ℚ :=
  match configs.find? fun c =>
      c.user_role == user.user_role && c.day_of_week == day_of_week && c.is_active with
  | none => none
  | some c => some c.end_time

/-- Writes back a saved user row into the user table. -/
def updateUser (users : List CustomUser) (u : CustomUser) : List CustomUser :=
  users.map fun v => if v.user_id == u.user_id then u else v

/-- One iteration of the sweep loop for one user: look up the end-of-day
time, skip the user without a config, and clock the user out when the local
time has passed the boundary.  Failures inside clock_out leave the store
unchanged (the per-user exception handler logs and continues), so the outcome
is applied only on success. -/
def sweepStep (now : Timestamp) (day_of_week : Nat) (st : OrgState)
    (u : CustomUser) : OrgState :=
  match get_user_day_end_time st.configs u day_of_week with
  | none => st
  | some end_time =>
    if now.tod ≥ end_time then
      let out := clock_out st.sessions u now (some "Auto clock-out at end of working hours")
      if out.result.status == "success" then
        { st with sessions := out.sessions, users := updateUser st.users out.user }
      else st
    else st

/-- AttendanceService.auto_clock_out_users_at_day_end (attendance_service.py
lines 19-71): iterate the users that are active and marked present (the
queryset is evaluated once, at the start of the run) and force a clock-out
for each one past its end-of-day boundary.  The source line combining the
date with the end time refers to the shadowed datetime module name; should it
raise at runtime, the per-user handler skips that user, so the frame theorems
below hold a fortiori; the embedding models the intended comparison. -/
def auto_clock_out_users_at_day_end (st : OrgState) (now : Timestamp)
    (day_of_week : Nat) : OrgState :=
  let present := st.users.filter fun u => u.is_active && u.is_present_today
  present.foldl (sweepStep now day_of_week) st

/-- HourCorrection.save (src/mapp/models.py lines 615-627): freeze the
hourly rate from the owning user when the row carries none, then always
recompute amount = hours times hourly_rate before persisting.  The user
argument is the row the user foreign key points at. -/
def HourCorrection.save (user : CustomUser) (hc : HourCorrection) : HourCorrection :=
  let rate := hc.hourly_rate.getD user.hourly_rate
  { hc with hourly_rate := some rate, amount := hc.hours * rate }

/-- PayrollService.record_hour_correction (payroll_service.py lines 76-134):
defaults the period to the current month and year when absent, pulls the
hourly rate directly from the user, and creates the row, whose save hook
computes the amount.  Returns the updated store and the saved row. -/
def record_hour_correction (db : DB) (user : CustomUser) (hours : ℚ)
    (reason : String) (month year : Option Nat) (now_date : Date)
    (now_month now_year : Nat) : DB × HourCorrection :=
  let m := month.getD now_month
  let y := year.getD now_year
  let correction : HourCorrection :=
    { user_id := user.user_id, date := now_date, month := m, year := y
      hours := hours, hourly_rate := some user.hourly_rate, amount := 0
      reason := reason }
  let saved := HourCorrection.save user correction
  ({ db with corrections := db.corrections ++ [saved] }, saved)

/-- HourlyRateSnapshot row (src/mapp/models.py lines 636-680). -/
structure HourlyRateSnapshot where
  user_id : Nat
  hourly_rate : ℚ
  currency : String
  effective_from : ℚ
  effective_to : Option ℚ
deriving Repr, DecidableEq

/-- StatutoryDeductionSnapshot row (src/mapp/models.py lines 682-726). -/
structure StatutoryDeductionSnapshot where
  deduction_id : Nat
  percentage : ℚ
  effective_from : ℚ
  effective_to : Option ℚ
deriving Repr, DecidableEq

/-- The pre_save receiver track_hourly_rate_change (src/mapp/signals.py lines
35-62).  The old argument is the stored row with the same primary key, none
for a brand-new row (or a vanished one), in which case the handler returns
without touching the snapshots.  On an actual rate change it closes every
open snapshot of the user and appends a fresh open one. -/
def track_hourly_rate_change (snapshots : List HourlyRateSnapshot)
    (old : Option CustomUser) (inst : CustomUser) (now : ℚ) :
    List HourlyRateSnapshot :=
  match old with
  | none => snapshots
  | some o =>
    if o.hourly_rate = inst.hourly_rate then snapshots
    else
      (snapshots.map fun s =>
        if s.user_id == inst.user_id && s.effective_to == none then
          { s with effective_to := some now }
        else s)
      ++ [{ user_id := inst.user_id, hourly_rate := inst.hourly_rate
            currency := inst.hourly_rate_currency
            effective_from := now, effective_to := none }]

/-- The pre_save receiver track_statutory_deduction_change (src/mapp/signals.py
lines 7-33), identical in shape to the hourly-rate tracker. -/
def track_statutory_deduction_change (snapshots : List StatutoryDeductionSnapshot)
    (old : Option StatutoryDeduction) (inst : StatutoryDeduction) (now : ℚ) :
    List StatutoryDeductionSnapshot :=
  match old with
  | none => snapshots
  | some o =>
    if o.percentage = inst.percentage then snapshots
    else
      (snapshots.map fun s =>
        if s.deduction_id == inst.id && s.effective_to == none then
          { s with effective_to := some now }
        else s)
      ++ [{ deduction_id := inst.id, percentage := inst.percentage
            effective_from := now, effective_to := none }]

/-- Open (effective_to still null) hourly-rate snapshots of one user. -/
def openRateSnapshots (snapshots : List HourlyRateSnapshot) (uid : Nat) :
    List HourlyRateSnapshot :=
  snapshots.filter fun s => s.user_id == uid && s.effective_to == none

/-- Open (effective_to still null) deduction snapshots of one deduction. -/
def openDeductionSnapshots (snapshots : List StatutoryDeductionSnapshot)
    (did : Nat) : List StatutoryDeductionSnapshot :=
  snapshots.filter fun s => s.deduction_id == did && s.effective_to == none

/-- Rows of a session table with status open for a user, the set the
single-open-session invariant counts. -/
def openCount (sessions : List AttendanceSession) (u : CustomUser) : Nat :=
  (sessions.filter fun s => s.user_id == u.user_id && s.status == "open").length

/-- Well-formedness the service maintains: an open session has no clock-out
time yet (clock_in creates sessions that way, clock_out closes the status and
stamps the time together). -/
def openSessionsWF (sessions : List AttendanceSession) : Prop :=
  ∀ s ∈ sessions, s.status = "open" → s.clock_out_time = none

/-- Identifiers of the users the sweep considers: active and marked present
at the start of the run. -/
def presentIds (st : OrgState) : List Nat :=
  (st.users.filter fun u => u.is_active && u.is_present_today).map fun u => u.user_id

/-- Overwrite of the two lunch columns of a session, used to state that the
stored total_hours does not depend on them. -/
def setLunch (li lo : Option Timestamp) (s : AttendanceSession) : AttendanceSession :=
  { s with lunch_in := li, lunch_out := lo }

/-- Fixture: a subordinate user at rate 100 KES per hour, not on leave, not
yet present. -/
def exampleUser : CustomUser :=
  { user_id := 1, user_role := "subordinate", hourly_rate := 100
    hourly_rate_currency := "KES", lunch_start := none, lunch_end := none
    is_present_today := false, is_on_leave := false, is_on_holiday := false
    status := "active", is_active := true }

/-- Fixture: the same user flagged on leave. -/
def onLeaveUser : CustomUser :=
  { exampleUser with user_id := 2, is_on_leave := true }

/-- Fixture: a morning timestamp on 2024-01-15 (08:00, seconds since
midnight 28800). -/
def ts0800 : Timestamp := { date := ⟨2024, 1, 15⟩, sec := 1705298400, tod := 28800 }

/-- Fixture: the same day at 18:00, ten hours later. -/
def ts1800 : Timestamp := { date := ⟨2024, 1, 15⟩, sec := 1705334400, tod := 64800 }

/-- Fixture: the same day at 19:00. -/
def ts1900 : Timestamp := { date := ⟨2024, 1, 15⟩, sec := 1705338000, tod := 68400 }

/-- Fixture: a closed ten-hour session of exampleUser in January 2024. -/
def closedSession : AttendanceSession :=
  { user_id := 1, date := ⟨2024, 1, 15⟩
    clock_in_time := some ts0800, lunch_in := none, lunch_out := none
    clock_out_time := some ts1800, clockin_type := "regular"
    total_hours := some 10, notes := none, clock_in_photo := none
    status := "closed" }

/-- Fixture: store with one closed ten-hour session at rate 100 (gross pay
1000) and the two deduction rows of the spec example, PAYE ten percent and
NSSF six percent. -/
def exampleDB : DB :=
  { sessions := [closedSession], overtimes := [], advances := []
    deductions := [⟨1, "PAYE", 10⟩, ⟨2, "NSSF", 6⟩], corrections := [] }

/-- Fixture: a completely empty store. -/
def emptyDB : DB :=
  { sessions := [], overtimes := [], advances := [], deductions := []
    corrections := [] }

/-- Fixture: the example store with the deduction table emptied. -/
def noDeductionDB : DB := { exampleDB with deductions := [] }

/-- Fixture: a non-zero hour correction of exampleUser inside January 2024
(five hours at the frozen rate 100, amount 500). -/
def exampleCorrection : HourCorrection :=
  { user_id := 1, date := ⟨2024, 1, 10⟩, month := 1, year := 2024
    hours := 5, hourly_rate := some 100, amount := 500, reason := "missed shift" }

/-- Fixture: the example store carrying that hour correction. -/
def correctionDB : DB := { exampleDB with corrections := [exampleCorrection] }

/-- Fixture: a working-hours config row closing the subordinate role at
18:00 on Mondays (day_of_week 1). -/
def exampleConfig : WorkingHoursConfig :=
  { user_role := "subordinate", day_of_week := 1, start_time := 28800
    end_time := 64800, timezone := "Africa/Nairobi", is_active := true }

/-- Fixture: a still-open session of exampleUser started at 08:00. -/
def openSession : AttendanceSession :=
  { user_id := 1, date := ⟨2024, 1, 15⟩
    clock_in_time := some ts0800, lunch_in := none, lunch_out := none
    clock_out_time := none, clockin_type := "regular"
    total_hours := none, notes := none, clock_in_photo := none
    status := "open" }

/-- Fixture: a user that is marked present with an open session, next to an
absent user owning a closed session, for the sweep theorems. -/
def presentUser : CustomUser :=
  { exampleUser with is_present_today := true }

/-- Fixture: an absent user owning the closed session fixture. -/
def absentUser : CustomUser :=
  { exampleUser with user_id := 3, is_present_today := false }

/-- Fixture: organization state for the sweep: the present user has an open
session past the end-of-day boundary, the absent user a closed one. -/
def sweepState : OrgState :=
  { users := [presentUser, absentUser]
    sessions := [{ closedSession with user_id := 3 }, openSession]
    configs := [exampleConfig] }

/-- Frame condition of the auto-clock-out sweep at session index i of the
starting state: the row there is an open session owned by a user who was
active and marked present when the sweep started. -/
def openPresentAt (st0 : OrgState) (i : Nat) : Prop :=
  ∃ s, st0.sessions[i]? = some s ∧ s.status = "open" ∧
    ∃ u ∈ st0.users, u.user_id = s.user_id ∧ u.is_active = true ∧
      u.is_present_today = true

/-! Theorems.  Each claim of the specification is settled by one named
theorem below; helper lemmas carry neutral names and are shared. -/

/-- C1: the payslip of generate_detailed_payslip and the result of
calculate_net_pay satisfy net_pay = gross_pay - total_deductions -
total_advance exactly, with gross_pay = total_base_pay + total_overtime and
every deduction row carrying amount = gross_pay times percentage over 100;
on the spec example (PAYE ten percent, NSSF six percent, gross 1000) the
breakdown is exactly two rows with amounts 100 and 60 and total 160; and on a
fully empty store the computation still produces the complete structure (the
embedding is a total function, so no key is ever missing). -/
theorem C1_net_pay_exact :
    (∀ (db : DB) (user : CustomUser) (month year : Nat),
       (generate_detailed_payslip db user month year).net_pay =
         (generate_detailed_payslip db user month year).gross_pay -
           (generate_detailed_payslip db user month year).total_deductions -
           (generate_detailed_payslip db user month year).total_advance ∧
       (generate_detailed_payslip db user month year).gross_pay =
         (generate_detailed_payslip db user month year).total_base_pay +
           (generate_detailed_payslip db user month year).total_overtime ∧
       ∀ r ∈ (generate_detailed_payslip db user month year).deductions_breakdown,
         r.amount =
           (generate_detailed_payslip db user month year).gross_pay *
             (r.percentage / 100)) ∧
    (∀ (db : DB) (user : CustomUser) (month year : Nat),
       (calculate_net_pay db user month year).net_pay =
         (calculate_net_pay db user month year).gross_pay -
           (calculate_net_pay db user month year).total_deductions -
           (calculate_net_pay db user month year).total_advance) ∧
    (generate_detailed_payslip exampleDB exampleUser 1 2024).deductions_breakdown =
      [⟨"PAYE", 10, 100⟩, ⟨"NSSF", 6, 60⟩] ∧
    (generate_detailed_payslip exampleDB exampleUser 1 2024).total_deductions = 160 ∧
    generate_detailed_payslip emptyDB exampleUser 1 2024 =
      { month := 1, year := 2024, hourly_rate := 100, currency := "KES"
        base_pay_breakdown := [{ date := none, hours := 0, pay := 0, notes := "" }]
        total_hours := 0, total_base_pay := 0
        overtime_breakdown := [{ date := none, hours := 0, amount := 0, remarks := "" }]
        total_overtime := 0, gross_pay := 0
        deductions_breakdown := [], total_deductions := 0
        advance_breakdown := [{ date := none, amount := 0, remarks := "", approved_by := none }]
        total_advance := 0, net_pay := 0 } := by
  refine ⟨fun db user month year => ⟨rfl, rfl, ?_⟩,
          fun db user month year => rfl,
          by norm_num [generate_detailed_payslip, get_all_deductions, get_hourly_rate,
               exampleDB, exampleUser, closedSession],
          by norm_num [generate_detailed_payslip, get_all_deductions, get_hourly_rate,
               exampleDB, exampleUser, closedSession],
          by norm_num [generate_detailed_payslip, get_all_deductions, get_hourly_rate,
               emptyDB, exampleUser]⟩
  intro r hr
  simp only [generate_detailed_payslip, get_all_deductions, List.mem_map] at hr
  obtain ⟨d, _, rfl⟩ := hr
  rfl

/-- C1 witness: the universally quantified parts applied at the concrete
example store, discharging the membership hypothesis at the PAYE row. -/
theorem C1_net_pay_exact_witness :
    ({ name := "PAYE", percentage := 10, amount := 100 } : DeductionRow).amount =
      (generate_detailed_payslip exampleDB exampleUser 1 2024).gross_pay *
        (({ name := "PAYE", percentage := 10, amount := 100 } : DeductionRow).percentage / 100) :=
  (C1_net_pay_exact.1 exampleDB exampleUser 1 2024).2.2 _
    (by norm_num [generate_detailed_payslip, get_all_deductions, get_hourly_rate,
          exampleDB, exampleUser, closedSession])

/-- C4 counterexample: a non-zero hour correction of the user, lying inside
the payslip period, leaves generate_detailed_payslip completely unchanged;
the natural witness input for the claimed aggregation in fact shows the
payslip does not aggregate hour corrections. -/
theorem C4_counterexample :
    exampleCorrection.user_id = exampleUser.user_id ∧
    exampleCorrection.month = 1 ∧ exampleCorrection.year = 2024 ∧
    exampleCorrection.amount = 500 ∧
    correctionDB = { exampleDB with corrections := [exampleCorrection] } ∧
    generate_detailed_payslip correctionDB exampleUser 1 2024 =
      generate_detailed_payslip exampleDB exampleUser 1 2024 :=
  ⟨rfl, rfl, rfl, rfl, rfl, rfl⟩

/-- C4 amended: the payslip generator aggregates closed attendance sessions,
overtime allowances, advances and deductions, but it never reads the
HourCorrection table: its output is identical for every corrections list, so
no correction ever changes the computed totals. -/
theorem C4_payslip_ignores_corrections :
    ∀ (db : DB) (corr : List HourCorrection) (user : CustomUser) (month year : Nat),
      generate_detailed_payslip { db with corrections := corr } user month year =
        generate_detailed_payslip db user month year :=
  fun _ _ _ _ _ => rfl

/-- C5 counterexample: with zero StatutoryDeduction rows the deduction fetch
succeeds with an empty list and the payslip carries an empty
deductions_breakdown, not a placeholder row; the surrounding payslip is a
perfectly ordinary success (gross pay 1000 here). -/
theorem C5_counterexample :
    noDeductionDB.deductions = [] ∧
    (generate_detailed_payslip noDeductionDB exampleUser 1 2024).deductions_breakdown = [] ∧
    (generate_detailed_payslip noDeductionDB exampleUser 1 2024).gross_pay = 1000 := by
  refine ⟨rfl, rfl, ?_⟩
  norm_num [generate_detailed_payslip, get_hourly_rate, noDeductionDB, exampleDB,
    exampleUser, closedSession]

/-- C5 amended: the base pay, overtime and advance sections always carry at
least one row (a placeholder row when the underlying record set is empty,
exactly as on the empty store below), while the deductions section carries
one row per StatutoryDeduction row, hence an empty list when zero deduction
rows exist; its No Deductions placeholder appears only when the deduction
fetch itself fails. -/
theorem C5_sections_present :
    (∀ (db : DB) (user : CustomUser) (month year : Nat),
       0 < (generate_detailed_payslip db user month year).base_pay_breakdown.length ∧
       0 < (generate_detailed_payslip db user month year).overtime_breakdown.length ∧
       0 < (generate_detailed_payslip db user month year).advance_breakdown.length ∧
       (generate_detailed_payslip db user month year).deductions_breakdown.length =
         db.deductions.length) ∧
    (generate_detailed_payslip emptyDB exampleUser 1 2024).base_pay_breakdown =
      [{ date := none, hours := 0, pay := 0, notes := "" }] ∧
    (generate_detailed_payslip emptyDB exampleUser 1 2024).overtime_breakdown =
      [{ date := none, hours := 0, amount := 0, remarks := "" }] ∧
    (generate_detailed_payslip emptyDB exampleUser 1 2024).advance_breakdown =
      [{ date := none, amount := 0, remarks := "", approved_by := none }] := by
  refine ⟨?_, rfl, rfl, rfl⟩
  intro db user month year
  refine ⟨?_, ?_, ?_, ?_⟩
  · simp only [generate_detailed_payslip]
    split
    · simp
    · simp_all [List.isEmpty_eq_false_iff_exists_mem, List.length_pos]
  · simp only [generate_detailed_payslip]
    split
    · simp
    · simp_all [List.isEmpty_eq_false_iff_exists_mem, List.length_pos]
  · simp only [generate_detailed_payslip]
    split
    · simp
    · simp_all [List.isEmpty_eq_false_iff_exists_mem, List.length_pos]
  · simp [generate_detailed_payslip, get_all_deductions]

/-- C6 counterexample: clock_in checks for a missing timestamp before the
leave flag, so an on-leave user with a missing timestamp receives
missing_timestamp, not user_on_leave. -/
theorem C6_counterexample :
    onLeaveUser.is_on_leave = true ∧
    clock_in [] onLeaveUser none "regular" none =
      ⟨⟨"error", "missing_timestamp"⟩, [], onLeaveUser⟩ ∧
    ("missing_timestamp" : String) ≠ "user_on_leave" := by
  refine ⟨rfl, rfl, by decide⟩

/-- C6 amended: for every supplied (non-missing) timestamp and every
clockin_type, valid or not, clock_in for an on-leave user fails with
user_on_leave and creates no session; a missing timestamp instead fails
first with missing_timestamp, also creating no session. -/
theorem C6_on_leave_rejected :
    ∀ (sessions : List AttendanceSession) (user : CustomUser) (ts : Timestamp)
      (ctype : String) (photo : Option B64Photo),
      user.is_on_leave = true →
      clock_in sessions user (some ts) ctype photo =
        ⟨⟨"error", "user_on_leave"⟩, sessions, user⟩ ∧
      clock_in sessions user none ctype photo =
        ⟨⟨"error", "missing_timestamp"⟩, sessions, user⟩ := by
  intro sessions user ts ctype photo h
  exact ⟨by simp [clock_in, h], rfl⟩

/-- C6 witness: the amended theorem applied to the on-leave fixture with a
concrete timestamp and an invalid clock-in type. -/
theorem C6_on_leave_rejected_witness :
    clock_in [] onLeaveUser (some ts0800) "badtype" none =
      ⟨⟨"error", "user_on_leave"⟩, [], onLeaveUser⟩ :=
  (C6_on_leave_rejected [] onLeaveUser ts0800 "badtype" none rfl).1

/-- C7: after every save of an HourCorrection row the stored amount equals
hours times hourly_rate exactly; the rate is frozen from the owning user
exactly once (a second save under a different user rate keeps the frozen
rate while recomputing the amount from the new hours); an externally
supplied amount is always overwritten; and record_hour_correction persists a
row whose amount is hours times the current user rate. -/
theorem C7_correction_amount_invariant :
    (∀ (user : CustomUser) (hc : HourCorrection),
       (HourCorrection.save user hc).hourly_rate =
         some (hc.hourly_rate.getD user.hourly_rate) ∧
       (HourCorrection.save user hc).hours = hc.hours ∧
       (HourCorrection.save user hc).amount =
         hc.hours * hc.hourly_rate.getD user.hourly_rate) ∧
    (∀ (user user2 : CustomUser) (hc : HourCorrection) (h2 : ℚ),
       HourCorrection.save user2 { HourCorrection.save user hc with hours := h2 } =
         { HourCorrection.save user hc with
             hours := h2, amount := h2 * hc.hourly_rate.getD user.hourly_rate }) ∧
    (∀ (user : CustomUser) (hc : HourCorrection) (a : ℚ),
       HourCorrection.save user { hc with amount := a } = HourCorrection.save user hc) ∧
    (∀ (db : DB) (user : CustomUser) (hours : ℚ) (reason : String)
       (month year : Option Nat) (nd : Date) (nm ny : Nat),
       (record_hour_correction db user hours reason month year nd nm ny).2.amount =
         hours * user.hourly_rate ∧
       (record_hour_correction db user hours reason month year nd nm ny).2.hourly_rate =
         some user.hourly_rate ∧
       (record_hour_correction db user hours reason month year nd nm ny).1.corrections =
         db.corrections ++ [(record_hour_correction db user hours reason month year nd nm ny).2]) :=
  ⟨fun _ _ => ⟨rfl, rfl, rfl⟩, fun _ _ _ _ => rfl, fun _ _ _ => rfl,
   fun _ _ _ _ _ _ _ _ _ => ⟨rfl, rfl, rfl⟩⟩

/-- Helper: updateFirst never changes the length of the table. -/
theorem updateFirst_length (p : AttendanceSession → Bool)
    (f : AttendanceSession → AttendanceSession) (l : List AttendanceSession) :
    (updateFirst p f l).length = l.length := by
  induction l with
  | nil => rfl
  | cons x rest ih =>
    rw [updateFirst]
    split <;> simp [ih]

/-- Helper: when the locked read finds no open session and every open
session has a null clock-out time, the user has no open session at all. -/
theorem openCount_zero_of_find_none (sessions : List AttendanceSession)
    (user : CustomUser) (hwf : openSessionsWF sessions)
    (hfind : sessions.find? (open_session_for user) = none) :
    openCount sessions user = 0 := by
  rw [openCount, List.length_eq_zero, List.filter_eq_nil_iff]
  intro s hs hmatch
  have hnone := List.find?_eq_none.mp hfind s hs
  simp only [Bool.and_eq_true, beq_iff_eq] at hmatch
  obtain ⟨h1, h2⟩ := hmatch
  have h3 := hwf s hs h2
  exact hnone (by simp [open_session_for, h1, h2, h3])

/-- C2: a second clock_in for a user who already has an open session (the
scenario of the spec: the first call succeeded, so the user is not on leave
and the type is valid) fails with active_session_exists and inserts no row;
moreover clock_in preserves the at-most-one-open-session-per-user invariant
on every well-formed table. -/
theorem C2_single_open_session :
    ∀ (sessions : List AttendanceSession) (user : CustomUser) (ts : Timestamp)
      (ctype : String) (photo : Option B64Photo),
      (user.is_on_leave = false →
       ctype ∈ CLOCKIN_TYPE_CHOICES →
       (∃ s ∈ sessions, open_session_for user s = true) →
       (clock_in sessions user (some ts) ctype photo).result =
         ⟨"error", "active_session_exists"⟩ ∧
       (clock_in sessions user (some ts) ctype photo).sessions = sessions) ∧
      (openSessionsWF sessions → openCount sessions user ≤ 1 →
       openCount (clock_in sessions user (some ts) ctype photo).sessions user ≤ 1) := by
  intro sessions user ts ctype photo
  constructor
  · intro hl hct hex
    cases hfind : sessions.find? (open_session_for user) with
    | none =>
      obtain ⟨s, hs, hps⟩ := hex
      exact absurd hps (by simpa using List.find?_eq_none.mp hfind s hs)
    | some s =>
      exact ⟨by simp [clock_in, hl, hct, hfind], by simp [clock_in, hl, hct, hfind]⟩
  · intro hwf hle
    cases hl : user.is_on_leave with
    | true => simpa [clock_in, hl] using hle
    | false =>
      by_cases hct : ctype ∈ CLOCKIN_TYPE_CHOICES
      case neg => simpa [clock_in, hl, hct] using hle
      case pos =>
        cases hfind : sessions.find? (open_session_for user) with
        | some s => simpa [clock_in, hl, hct, hfind] using hle
        | none =>
          have h0 := openCount_zero_of_find_none sessions user hwf hfind
          have key : ∀ x : AttendanceSession,
              openCount (sessions ++ [x]) user ≤ 1 := by
            intro x
            rw [openCount, List.filter_append, List.length_append]
            rw [openCount] at h0
            rw [h0, Nat.zero_add]
            exact le_trans (List.length_filter_le _ _) (by simp)
          cases photo with
          | none => simpa [clock_in, hl, hct, hfind] using key _
          | some p =>
            cases hd : p.decoded with
            | none => simpa [clock_in, hl, hct, hfind, hd] using hle
            | some file => simpa [clock_in, hl, hct, hfind, hd] using key _

/-- C2 witness: the invariant and the duplicate-clock-in error at the
concrete one-open-session fixture. -/
theorem C2_single_open_session_witness :
    exampleUser.is_on_leave = false ∧
    (clock_in [openSession] exampleUser (some ts1800) "regular" none).result =
      ⟨"error", "active_session_exists"⟩ ∧
    (clock_in [openSession] exampleUser (some ts1800) "regular" none).sessions =
      [openSession] ∧
    openCount (clock_in [openSession] exampleUser (some ts1800) "regular" none).sessions
      exampleUser ≤ 1 := by
  have h := C2_single_open_session [openSession] exampleUser ts1800 "regular" none
  have h1 := h.1 rfl (by decide) ⟨openSession, by decide, by decide⟩
  refine ⟨rfl, h1.1, h1.2, h.2 ?_ (by decide)⟩
  intro s hs _
  rw [List.mem_singleton] at hs
  subst hs
  rfl

/-- Helper: a user whose present flag is already true is unchanged by
setting it to true. -/
theorem user_mark_present (user : CustomUser) (h : user.is_present_today = true) :
    user = { user with is_present_today := true } := by
  cases user
  simp_all

/-- C10: a successful clock_in changes nothing of the user record except
setting is_present_today to true, and a successful clock_out changes
nothing except setting it to false (the record-update equalities say all
remaining fields, including hourly_rate, user_role, the leave, holiday and
lunch fields and status, are untouched). -/
theorem C10_user_frame :
    (∀ (sessions : List AttendanceSession) (user : CustomUser)
       (timestamp : Option Timestamp) (ctype : String) (photo : Option B64Photo),
       (clock_in sessions user timestamp ctype photo).result.status = "success" →
       (clock_in sessions user timestamp ctype photo).user =
         { user with is_present_today := true }) ∧
    (∀ (sessions : List AttendanceSession) (user : CustomUser) (ts : Timestamp)
       (notes : Option String),
       (clock_out sessions user ts notes).result.status = "success" →
       (clock_out sessions user ts notes).user =
         { user with is_present_today := false }) := by
  constructor
  · intro sessions user timestamp ctype photo h
    cases timestamp with
    | none => simp [clock_in] at h
    | some ts =>
      cases hl : user.is_on_leave with
      | true => simp [clock_in, hl] at h
      | false =>
        by_cases hct : ctype ∈ CLOCKIN_TYPE_CHOICES
        case neg => simp [clock_in, hl, hct] at h
        case pos =>
          cases hfind : sessions.find? (open_session_for user) with
          | some s => simp [clock_in, hl, hct, hfind] at h
          | none =>
            cases photo with
            | none =>
              simp [clock_in, hl, hct, hfind]
              intro hp
              cases user
              simp_all
            | some p =>
              cases hd : p.decoded with
              | none => simp [clock_in, hl, hct, hfind, hd] at h
              | some file =>
                simp [clock_in, hl, hct, hfind, hd]
                intro hp
                cases user
                simp_all
  · intro sessions user ts notes h
    cases hfind : sessions.find? (open_session_for user) with
    | none => simp [clock_out, hfind] at h
    | some s =>
      cases hin : s.clock_in_time with
      | none => simp [clock_out, hfind, hin] at h
      | some t1 => simp [clock_out, hfind, hin]

/-- C10 witness: the frame equalities at a concrete successful clock-in and
a concrete successful clock-out. -/
theorem C10_user_frame_witness :
    (clock_in [] exampleUser (some ts0800) "regular" none).user =
      { exampleUser with is_present_today := true } ∧
    (clock_out [openSession] presentUser ts1800 none).user =
      { presentUser with is_present_today := false } :=
  ⟨C10_user_frame.1 [] exampleUser (some ts0800) "regular" none rfl,
   C10_user_frame.2 [openSession] presentUser ts1800 none rfl⟩

/-- Helper: the open-session predicate never looks at the lunch columns. -/
theorem open_session_for_setLunch (u : CustomUser) (li lo : Option Timestamp)
    (s : AttendanceSession) :
    open_session_for u (setLunch li lo s) = open_session_for u s := rfl

/-- Helper: the locked open-session read commutes with overwriting the lunch
columns of every row. -/
theorem find?_map_setLunch (u : CustomUser) (li lo : Option Timestamp)
    (l : List AttendanceSession) :
    (l.map (setLunch li lo)).find? (open_session_for u) =
      (l.find? (open_session_for u)).map (setLunch li lo) := by
  induction l with
  | nil => rfl
  | cons x rest ih =>
    cases hpx : open_session_for u x with
    | true =>
      rw [List.map_cons, List.find?_cons_of_pos _ (by rw [open_session_for_setLunch]; exact hpx),
          List.find?_cons_of_pos _ hpx]
      rfl
    | false =>
      rw [List.map_cons, List.find?_cons_of_neg _ (by simp [open_session_for_setLunch, hpx]),
          List.find?_cons_of_neg _ (by simp [hpx]), ih]

/-- Helper: stored total_hours of rows are untouched by overwriting lunch
columns. -/
theorem map_totalHours_setLunch (li lo : Option Timestamp)
    (l : List AttendanceSession) :
    ((l.map (setLunch li lo)).map fun s => s.total_hours) =
      l.map fun s => s.total_hours := by
  rw [List.map_map]; rfl

/-- Helper: closing the first open session commutes, at the level of the
stored total_hours column, with overwriting the lunch columns, since neither
the predicate nor the stored hours read them. -/
theorem updateFirst_setLunch_totalHours (p : AttendanceSession → Bool)
    (f : AttendanceSession → AttendanceSession) (li lo : Option Timestamp)
    (hp : ∀ x, p (setLunch li lo x) = p x)
    (hf : ∀ x, (f (setLunch li lo x)).total_hours = (f x).total_hours)
    (l : List AttendanceSession) :
    ((updateFirst p f (l.map (setLunch li lo))).map fun s => s.total_hours) =
      (updateFirst p f l).map fun s => s.total_hours := by
  induction l with
  | nil => rfl
  | cons x rest ih =>
    rw [List.map_cons, updateFirst, updateFirst, hp]
    cases hpx : p x with
    | true =>
      rw [if_pos rfl, if_pos rfl, List.map_cons, List.map_cons, hf x,
        map_totalHours_setLunch]
    | false =>
      rw [if_neg (by simp), if_neg (by simp), List.map_cons, List.map_cons]
      exact congrArg (List.cons x.total_hours) ih

/-- C3: a successful clock_out on the session found open (clocked in at t1)
returns success, replaces exactly that session by its closed version and
clears the present flag; the closed version carries clock_out_time = the
clock-out timestamp, status closed and total_hours = the Python rounding of
the second delta over 3600 to two decimals; and the stored total_hours
column of the result is unchanged under any overwrite of the lunch columns
of the table. -/
theorem C3_clock_out_round :
    ∀ (sessions : List AttendanceSession) (user : CustomUser) (ts : Timestamp)
      (notes : Option String) (s : AttendanceSession) (t1 : Timestamp),
      sessions.find? (open_session_for user) = some s →
      s.clock_in_time = some t1 →
      (clock_out sessions user ts notes =
        ⟨⟨"success", "clock_out_recorded"⟩,
         updateFirst (open_session_for user) (closeSession ts notes t1) sessions,
         { user with is_present_today := false }⟩) ∧
      (closeSession ts notes t1 s).clock_out_time = some ts ∧
      (closeSession ts notes t1 s).status = "closed" ∧
      (closeSession ts notes t1 s).total_hours =
        some (pyRound2 ((ts.sec - t1.sec) / 3600)) ∧
      ∀ li lo : Option Timestamp,
        ((clock_out (sessions.map (setLunch li lo)) user ts notes).sessions.map
            fun x => x.total_hours) =
          (clock_out sessions user ts notes).sessions.map fun x => x.total_hours := by
  intro sessions user ts notes s t1 hfind hin
  refine ⟨by simp [clock_out, hfind, hin], rfl, rfl, rfl, ?_⟩
  intro li lo
  have hfind2 : (sessions.map (setLunch li lo)).find? (open_session_for user) =
      some (setLunch li lo s) := by
    rw [find?_map_setLunch, hfind]; rfl
  have hin2 : (setLunch li lo s).clock_in_time = some t1 := hin
  simp only [clock_out, hfind, hfind2, hin, hin2]
  exact updateFirst_setLunch_totalHours (open_session_for user)
    (closeSession ts notes t1) li lo (fun x => open_session_for_setLunch user li lo x)
    (fun x => rfl) sessions

/-- C3 witness: the closure equalities at the concrete ten-hour session. -/
theorem C3_clock_out_round_witness :
    clock_out [openSession] exampleUser ts1800 none =
      ⟨⟨"success", "clock_out_recorded"⟩,
       updateFirst (open_session_for exampleUser) (closeSession ts1800 none ts0800)
         [openSession],
       { exampleUser with is_present_today := false }⟩ ∧
    (closeSession ts1800 none ts0800 openSession).total_hours =
      some (pyRound2 ((ts1800.sec - ts0800.sec) / 3600)) := by
  have h := C3_clock_out_round [openSession] exampleUser ts1800 none openSession ts0800
    rfl rfl
  exact ⟨h.1, h.2.2.2.1⟩

/-- Helper: filtering after mapping is plain filtering when the map neither
changes the predicate value nor the kept elements. -/
theorem filter_map_eq_filter {α : Type} (f : α → α) (p : α → Bool)
    (h1 : ∀ s, p (f s) = p s) (h2 : ∀ s, p s = true → f s = s) (l : List α) :
    (l.map f).filter p = l.filter p := by
  induction l with
  | nil => rfl
  | cons x rest ih =>
    rw [List.map_cons, List.filter_cons, List.filter_cons, h1]
    cases hpx : p x with
    | true =>
      rw [if_pos rfl, if_pos rfl, h2 x hpx]
      exact congrArg (List.cons x) ih
    | false =>
      rw [if_neg (by simp), if_neg (by simp)]
      exact ih

/-- Helper: after the closing pass of the rate tracker no open snapshot of
the user is left. -/
theorem openRate_map_close (snapshots : List HourlyRateSnapshot) (uid : Nat)
    (now : ℚ) :
    openRateSnapshots
      (snapshots.map fun s =>
        if s.user_id == uid && s.effective_to == none then
          { s with effective_to := some now }
        else s) uid = [] := by
  rw [openRateSnapshots, List.filter_eq_nil_iff]
  intro a ha
  rw [List.mem_map] at ha
  obtain ⟨s, _, rfl⟩ := ha
  by_cases hc : (s.user_id == uid && s.effective_to == none) = true
  · rw [if_pos hc]
    intro h
    rw [Bool.and_eq_true] at h
    simpa using h.2
  · rw [if_neg hc]
    exact hc

/-- Helper: after the closing pass of the deduction tracker no open snapshot
of the deduction is left. -/
theorem openDeduction_map_close (snapshots : List StatutoryDeductionSnapshot)
    (did : Nat) (now : ℚ) :
    openDeductionSnapshots
      (snapshots.map fun s =>
        if s.deduction_id == did && s.effective_to == none then
          { s with effective_to := some now }
        else s) did = [] := by
  rw [openDeductionSnapshots, List.filter_eq_nil_iff]
  intro a ha
  rw [List.mem_map] at ha
  obtain ⟨s, _, rfl⟩ := ha
  by_cases hc : (s.deduction_id == did && s.effective_to == none) = true
  · rw [if_pos hc]
    intro h
    rw [Bool.and_eq_true] at h
    simpa using h.2
  · rw [if_neg hc]
    exact hc

/-- C8: the pre_save trackers preserve the at-most-one-open-snapshot
invariant for every user and every deduction, and on an actual value change
they close every previously open snapshot of that entity with effective_to =
now and leave exactly one open snapshot, the fresh one carrying the new
value and effective_from = now. -/
theorem C8_snapshot_invariant :
    (∀ (snaps : List HourlyRateSnapshot) (old : Option CustomUser)
       (inst : CustomUser) (now : ℚ) (uid : Nat),
       (openRateSnapshots snaps uid).length ≤ 1 →
       (openRateSnapshots (track_hourly_rate_change snaps old inst now) uid).length ≤ 1) ∧
    (∀ (snaps : List HourlyRateSnapshot) (o inst : CustomUser) (now : ℚ),
       o.hourly_rate ≠ inst.hourly_rate →
       openRateSnapshots (track_hourly_rate_change snaps (some o) inst now)
           inst.user_id =
         [{ user_id := inst.user_id, hourly_rate := inst.hourly_rate,
            currency := inst.hourly_rate_currency, effective_from := now,
            effective_to := none }] ∧
       ∀ s ∈ snaps, s.user_id = inst.user_id → s.effective_to = none →
         { s with effective_to := some now } ∈
           track_hourly_rate_change snaps (some o) inst now) ∧
    (∀ (snaps : List StatutoryDeductionSnapshot) (old : Option StatutoryDeduction)
       (inst : StatutoryDeduction) (now : ℚ) (did : Nat),
       (openDeductionSnapshots snaps did).length ≤ 1 →
       (openDeductionSnapshots (track_statutory_deduction_change snaps old inst now)
           did).length ≤ 1) ∧
    (∀ (snaps : List StatutoryDeductionSnapshot) (o inst : StatutoryDeduction)
       (now : ℚ),
       o.percentage ≠ inst.percentage →
       openDeductionSnapshots (track_statutory_deduction_change snaps (some o) inst now)
           inst.id =
         [{ deduction_id := inst.id, percentage := inst.percentage,
            effective_from := now, effective_to := none }] ∧
       ∀ s ∈ snaps, s.deduction_id = inst.id → s.effective_to = none →
         { s with effective_to := some now } ∈
           track_statutory_deduction_change snaps (some o) inst now) := by
  refine ⟨?_, ?_, ?_, ?_⟩
  · intro snaps old inst now uid hle
    cases old with
    | none => exact hle
    | some o =>
      by_cases heq : o.hourly_rate = inst.hourly_rate
      · simpa [track_hourly_rate_change, heq] using hle
      · rw [track_hourly_rate_change]
        rw [if_neg heq]
        rw [openRateSnapshots, List.filter_append, List.length_append]
        rw [openRateSnapshots] at hle
        by_cases huid : uid = inst.user_id
        · subst huid
          have h0 := openRate_map_close snaps inst.user_id now
          rw [openRateSnapshots] at h0
          rw [h0]
          simp
        · have h1 : ∀ s : HourlyRateSnapshot,
              ((if s.user_id == inst.user_id && s.effective_to == none then
                  { s with effective_to := some now }
                else s).user_id == uid &&
                (if s.user_id == inst.user_id && s.effective_to == none then
                  { s with effective_to := some now }
                else s).effective_to == none) =
              (s.user_id == uid && s.effective_to == none) := by
            intro s
            by_cases hc : (s.user_id == inst.user_id && s.effective_to == none) = true
            · have hc2 := hc
              rw [Bool.and_eq_true, beq_iff_eq] at hc2
              have hfalse : (s.user_id == uid) = false := by
                rw [beq_eq_false_iff_ne, hc2.1]
                exact fun h => huid h.symm
              rw [if_pos hc]
              simp [hfalse]
            · rw [if_neg hc]
          have h2 : ∀ s : HourlyRateSnapshot,
              (s.user_id == uid && s.effective_to == none) = true →
              (if s.user_id == inst.user_id && s.effective_to == none then
                  { s with effective_to := some now }
                else s) = s := by
            intro s hs
            rw [Bool.and_eq_true, beq_iff_eq] at hs
            rw [if_neg]
            intro hcon
            rw [Bool.and_eq_true, beq_iff_eq] at hcon
            refine huid ?_
            rw [← hs.1]
            exact hcon.1
          rw [filter_map_eq_filter _ _ h1 h2]
          have hnew : (inst.user_id == uid) = false := by
            rw [beq_eq_false_iff_ne]
            exact fun h => huid h.symm
          simpa [hnew] using hle
  · intro snaps o inst now hne
    constructor
    · rw [track_hourly_rate_change]
      rw [if_neg hne]
      rw [openRateSnapshots, List.filter_append]
      have h0 := openRate_map_close snaps inst.user_id now
      rw [openRateSnapshots] at h0
      rw [h0]
      simp
    · intro s hs hu he
      rw [track_hourly_rate_change, if_neg hne]
      refine List.mem_append_left _ ?_
      rw [List.mem_map]
      refine ⟨s, hs, ?_⟩
      rw [if_pos]
      rw [Bool.and_eq_true, beq_iff_eq, beq_iff_eq]
      exact ⟨hu, he⟩
  · intro snaps old inst now did hle
    cases old with
    | none => exact hle
    | some o =>
      by_cases heq : o.percentage = inst.percentage
      · simpa [track_statutory_deduction_change, heq] using hle
      · rw [track_statutory_deduction_change]
        rw [if_neg heq]
        rw [openDeductionSnapshots, List.filter_append, List.length_append]
        rw [openDeductionSnapshots] at hle
        by_cases hdid : did = inst.id
        · subst hdid
          have h0 := openDeduction_map_close snaps inst.id now
          rw [openDeductionSnapshots] at h0
          rw [h0]
          simp
        · have h1 : ∀ s : StatutoryDeductionSnapshot,
              ((if s.deduction_id == inst.id && s.effective_to == none then
                  { s with effective_to := some now }
                else s).deduction_id == did &&
                (if s.deduction_id == inst.id && s.effective_to == none then
                  { s with effective_to := some now }
                else s).effective_to == none) =
              (s.deduction_id == did && s.effective_to == none) := by
            intro s
            by_cases hc : (s.deduction_id == inst.id && s.effective_to == none) = true
            · have hc2 := hc
              rw [Bool.and_eq_true, beq_iff_eq] at hc2
              have hfalse : (s.deduction_id == did) = false := by
                rw [beq_eq_false_iff_ne, hc2.1]
                exact fun h => hdid h.symm
              rw [if_pos hc]
              simp [hfalse]
            · rw [if_neg hc]
          have h2 : ∀ s : StatutoryDeductionSnapshot,
              (s.deduction_id == did && s.effective_to == none) = true →
              (if s.deduction_id == inst.id && s.effective_to == none then
                  { s with effective_to := some now }
                else s) = s := by
            intro s hs
            rw [Bool.and_eq_true, beq_iff_eq] at hs
            rw [if_neg]
            intro hcon
            rw [Bool.and_eq_true, beq_iff_eq] at hcon
            refine hdid ?_
            rw [← hs.1]
            exact hcon.1
          rw [filter_map_eq_filter _ _ h1 h2]
          have hnew : (inst.id == did) = false := by
            rw [beq_eq_false_iff_ne]
            exact fun h => hdid h.symm
          simpa [hnew] using hle
  · intro snaps o inst now hne
    constructor
    · rw [track_statutory_deduction_change]
      rw [if_neg hne]
      rw [openDeductionSnapshots, List.filter_append]
      have h0 := openDeduction_map_close snaps inst.id now
      rw [openDeductionSnapshots] at h0
      rw [h0]
      simp
    · intro s hs hu he
      rw [track_statutory_deduction_change, if_neg hne]
      refine List.mem_append_left _ ?_
      rw [List.mem_map]
      refine ⟨s, hs, ?_⟩
      rw [if_pos]
      rw [Bool.and_eq_true, beq_iff_eq, beq_iff_eq]
      exact ⟨hu, he⟩

/-- C8 witness: one rate change and one percentage change at concrete data,
closing the single previously open snapshot and opening exactly one new. -/
theorem C8_snapshot_invariant_witness :
    openRateSnapshots
        (track_hourly_rate_change [⟨1, 100, "KES", 0, none⟩]
          (some exampleUser) { exampleUser with hourly_rate := 120 } 5) 1 =
      [⟨1, 120, "KES", 5, none⟩] ∧
    openDeductionSnapshots
        (track_statutory_deduction_change [⟨1, 10, 0, none⟩]
          (some ⟨1, "PAYE", 10⟩) ⟨1, "PAYE", 12⟩ 5) 1 =
      [⟨1, 12, 5, none⟩] := by
  constructor
  · exact (C8_snapshot_invariant.2.1 [⟨1, 100, "KES", 0, none⟩]
      exampleUser { exampleUser with hourly_rate := 120 } 5
      (by norm_num [exampleUser])).1
  · exact (C8_snapshot_invariant.2.2.2 [⟨1, 10, 0, none⟩]
      ⟨1, "PAYE", 10⟩ ⟨1, "PAYE", 12⟩ 5 (by norm_num)).1

/-- Helper: a true open-session predicate spells out user match, open status
and a null clock-out time. -/
theorem open_session_for_spec (u : CustomUser) (s : AttendanceSession)
    (h : open_session_for u s = true) :
    s.user_id = u.user_id ∧ s.status = "open" ∧ s.clock_out_time = none := by
  simp only [open_session_for, Bool.and_eq_true, beq_iff_eq] at h
  exact ⟨h.1.1, h.1.2, h.2⟩

/-- Helper: clock_out keeps the number of session rows. -/
theorem clock_out_sessions_length (ss : List AttendanceSession) (u : CustomUser)
    (ts : Timestamp) (n : Option String) :
    (clock_out ss u ts n).sessions.length = ss.length := by
  cases hfind : ss.find? (open_session_for u) with
  | none => simp [clock_out, hfind]
  | some s =>
    cases hin : s.clock_in_time with
    | none => simp [clock_out, hfind, hin]
    | some t1 => simp [clock_out, hfind, hin, updateFirst_length]

/-- Helper: updateFirst leaves every position unchanged except possibly the
first one satisfying the predicate, which then holds at the old row. -/
theorem updateFirst_getElem (p : AttendanceSession → Bool)
    (f : AttendanceSession → AttendanceSession) (l : List AttendanceSession)
    (i : Nat) :
    (updateFirst p f l)[i]? = l[i]? ∨
    ∃ s, l[i]? = some s ∧ p s = true := by
  induction l generalizing i with
  | nil => left; rfl
  | cons x rest ih =>
    cases hpx : p x with
    | true =>
      rw [updateFirst, if_pos hpx]
      cases i with
      | zero => right; exact ⟨x, by simp, hpx⟩
      | succ j => left; simp [List.getElem?_cons_succ]
    | false =>
      rw [updateFirst, if_neg (by simp [hpx])]
      cases i with
      | zero => left; simp
      | succ j =>
        rcases ih j with h | ⟨s, hs, hp⟩
        · left; simpa [List.getElem?_cons_succ] using h
        · right
          exact ⟨s, by simpa [List.getElem?_cons_succ] using hs, hp⟩

/-- Helper: clock_out leaves every position of the table unchanged except
possibly one that held an open session of the user. -/
theorem clock_out_getElem (ss : List AttendanceSession) (u : CustomUser)
    (ts : Timestamp) (n : Option String) (i : Nat) :
    (clock_out ss u ts n).sessions[i]? = ss[i]? ∨
    ∃ s, ss[i]? = some s ∧ open_session_for u s = true := by
  cases hfind : ss.find? (open_session_for u) with
  | none => left; simp [clock_out, hfind]
  | some s0 =>
    cases hin : s0.clock_in_time with
    | none => left; simp [clock_out, hfind, hin]
    | some t1 =>
      rcases updateFirst_getElem (open_session_for u) (closeSession ts n t1) ss i with
        h | hex
      · left
        simp only [clock_out, hfind, hin]
        exact h
      · right; exact hex

/-- Helper: one sweep iteration keeps the number of session rows. -/
theorem sweepStep_sessions_length (now : Timestamp) (dow : Nat) (st : OrgState)
    (u : CustomUser) :
    (sweepStep now dow st u).sessions.length = st.sessions.length := by
  cases hcfg : get_user_day_end_time st.configs u dow with
  | none => simp [sweepStep, hcfg]
  | some e =>
    simp only [sweepStep, hcfg]
    split
    · split
      · exact clock_out_sessions_length _ _ _ _
      · rfl
    · rfl

/-- Helper: one sweep iteration for a user leaves every table position
unchanged except possibly one holding an open session of that user. -/
theorem sweepStep_frame (now : Timestamp) (dow : Nat) (st : OrgState)
    (u : CustomUser) (i : Nat) :
    (sweepStep now dow st u).sessions[i]? = st.sessions[i]? ∨
    ∃ s, st.sessions[i]? = some s ∧ open_session_for u s = true := by
  cases hcfg : get_user_day_end_time st.configs u dow with
  | none => left; simp [sweepStep, hcfg]
  | some e =>
    simp only [sweepStep, hcfg]
    split
    · split
      · exact clock_out_getElem st.sessions u now _ i
      · left; rfl
    · left; rfl

/-- Helper: folding sweep iterations over users that were all active and
present in the starting state preserves the session count and the frame
condition relative to the starting state. -/
theorem sweep_fold_frame (now : Timestamp) (dow : Nat) (users : List CustomUser)
    (st0 : OrgState) :
    ∀ acc : OrgState,
    (∀ u ∈ users, u ∈ st0.users ∧ u.is_active = true ∧ u.is_present_today = true) →
    acc.sessions.length = st0.sessions.length →
    (∀ i : Nat, acc.sessions[i]? = st0.sessions[i]? ∨ openPresentAt st0 i) →
    (users.foldl (sweepStep now dow) acc).sessions.length = st0.sessions.length ∧
    ∀ i : Nat,
      (users.foldl (sweepStep now dow) acc).sessions[i]? = st0.sessions[i]? ∨
      openPresentAt st0 i := by
  induction users with
  | nil => exact fun acc _ hlen hframe => ⟨hlen, hframe⟩
  | cons u rest ih =>
    intro acc husers hlen hframe
    rw [List.foldl_cons]
    apply ih
    · exact fun v hv => husers v (List.mem_cons_of_mem _ hv)
    · rw [sweepStep_sessions_length]; exact hlen
    · intro i
      rcases sweepStep_frame now dow acc u i with h | ⟨s, hs, hp⟩
      · rcases hframe i with h0 | h0
        · left; rw [h, h0]
        · right; exact h0
      · rcases hframe i with h0 | h0
        · right
          have hu := husers u (List.mem_cons_self u rest)
          have hspec := open_session_for_spec u s hp
          exact ⟨s, by rw [← h0]; exact hs, hspec.2.1,
            u, hu.1, hspec.1.symm, hu.2.1, hu.2.2⟩
        · right; exact h0

/-- C9: the auto-clock-out sweep never creates a session row (the table
length is preserved) and every position it changes held an open session
owned by a user who was active and marked present at the start of the run;
in particular sessions of users with is_present_today false are never
modified. -/
theorem C9_sweep_frame :
    ∀ (st : OrgState) (now : Timestamp) (dow : Nat),
      (auto_clock_out_users_at_day_end st now dow).sessions.length =
        st.sessions.length ∧
      ∀ i : Nat,
        (auto_clock_out_users_at_day_end st now dow).sessions[i]? =
          st.sessions[i]? ∨
        ∃ s, st.sessions[i]? = some s ∧ s.status = "open" ∧
          ∃ u ∈ st.users, u.user_id = s.user_id ∧ u.is_active = true ∧
            u.is_present_today = true := by
  intro st now dow
  rw [auto_clock_out_users_at_day_end]
  apply sweep_fold_frame
  · intro u hu
    rw [List.mem_filter, Bool.and_eq_true] at hu
    exact ⟨hu.1, hu.2.1, hu.2.2⟩
  · rfl
  · intro i; left; rfl

end Morgenroth
